import Mathlib

/-!
Verification of the search-results navigation engine of the vzcode repository
(`src/client/VZSidebar/Search.tsx`), shallowly embedded in Lean 4.

JavaScript semantics relevant to the embedding:
* `focusedIndex` and `focusedChildIndex` are either `null` or a number — modelled
  as `Option Int`.
* array indexing `a[v]` yields `undefined` for `null` or out-of-range indices;
  reading a property of `undefined` throws a `TypeError` — modelled by `jGet`
  returning `Option` and a `threw` flag in the handler outcome.
* loose equality `v == n` between a nullable value and a number is true only
  when `v` is that number (`null == n` is false for every number `n`) — `jeqNum`.
* `v == null` is true exactly when `v` is `null` — `Option.isNone`.
* arithmetic on `null` coerces it to `0`, so `null + 1` evaluates to `1` — `jnum`.
-/

/-- One located occurrence of the search pattern: 1-based line, 0-based column
of the match start, and the full text of the line (type `SearchMatch` of the
repository). -/
structure SearchMatch where
  line : Int
  index : Int
  text : String
deriving DecidableEq

/-- Per-file search result: display name, visibility flag (one of the strings
"open", "flattened", "closed" as in the source) and the ordered match list
(type `SearchFile` of the repository). -/
structure SearchFile where
  name : String
  visibility : String
  «matches» : List SearchMatch
deriving DecidableEq

/-- Result of `Object.entries(results)` — the search results as an ordered association
list from file id to `SearchFile`. -/
abbrev Results := List (String × SearchFile)

/-- The navigation-relevant slice of the search session: the results mapping and
the two nullable focus indices. -/
structure SearchState where
  results : Results
  focusedIndex : Option Int
  focusedChildIndex : Option Int
deriving DecidableEq

/-- Function `files`, Search.tsx line 61: the visible files, i.e. the entries of
`results` whose visibility is not "closed". -/
def files (results : Results) : Results :=
  results.filter (fun p => p.2.visibility != "closed")

/-- JavaScript array read `l[v]`: `none` models the `undefined` produced by a
`null` or out-of-range index. -/
def jGet {α : Type} (l : List α) (v : Option Int) : Option α :=
  match v with
  | none => none
  | some i => if i < 0 then none else l[i.toNat]?

/-- JavaScript loose equality `v == n` of a nullable value against a number. -/
def jeqNum (v : Option Int) (n : Int) : Bool :=
  v = some n

/-- JavaScript `ToNumber` coercion of a nullable value (`null` becomes `0`),
used by `+`/`-` on a possibly-`null` operand. -/
def jnum (v : Option Int) : Int :=
  v.getD 0

/-- The context setter `setSearchFocusedIndex(fileIndex, childIndex)`: its
effect on the search state. -/
def setSearchFocusedIndex (st : SearchState) (fi ci : Option Int) : SearchState :=
  { st with focusedIndex := fi, focusedChildIndex := ci }

/-- Write a new visibility for every entry of the given file id, leaving name
and matches untouched. -/
def updateVis (fileId vis : String) (p : String × SearchFile) : String × SearchFile :=
  if p.1 = fileId then (p.1, { p.2 with visibility := vis }) else p

/-- Modelled from the spec: `setSearchFileVisibility(fileId, visibility, name)`
is provided by `VZCodeContext`, whose source is not among the given files.
Per §4.2 of the specification it writes the file's visibility through the
document store and, when writing "closed" while the focus points at that file,
reassigns the focus to the previous visible file (or to none if the closed
file was the first visible file). -/
def setSearchFileVisibility (st : SearchState) (fileId vis : String) : SearchState :=
  let results' := st.results.map (updateVis fileId vis)
  let focusAtFile : Bool :=
    match jGet (files st.results) st.focusedIndex with
    | some e => e.1 == fileId
    | none => false
  if vis = "closed" && focusAtFile then
    match st.focusedIndex with
    | some i =>
      if i = 0 then
        { results := results', focusedIndex := none, focusedChildIndex := none }
      else
        { results := results', focusedIndex := some (i - 1), focusedChildIndex := none }
    | none => { st with results := results' }
  else { st with results := results' }

/-- Function `flattenResult`, Search.tsx lines 86–95: toggles the file between "open"
and "flattened" through `setSearchFileVisibility`. Returns the updated state
together with the `(fileId, newVisibility)` pair passed to the store. -/
def flattenResult (st : SearchState) (fileId : String) (file : SearchFile) :
    SearchState × (String × String) :=
  let newVis := if file.visibility = "open" then "flattened" else "open"
  (setSearchFileVisibility st fileId newVis, (fileId, newVis))

/-- Function `closeResult`, Search.tsx lines 97–104: sets the file's visibility to
"closed". -/
def closeResult (st : SearchState) (fileId : String) : SearchState :=
  setSearchFileVisibility st fileId "closed"

/-- The keys the handler's switch distinguishes; `other` is the default case. -/
inductive Key where
  | tab | arrowUp | arrowDown | arrowLeft | arrowRight | enter | space | other
deriving DecidableEq

/-- The jump request issued to the editor surface of a file. -/
structure JumpCmd where
  fileId : String
  pattern : String
  line : Int
  index : Int
deriving DecidableEq

/-- The DOM environment the viewport-sync epilogue of the handler reads:
whether `sidebar-view-container` exists and which element ids resolve. -/
structure DomEnv where
  containerExists : Bool
  elemExists : String → Bool

/-- Observable outcome of one `handleKeyDown` call: the state after the applied
mutations, the `setActiveFileId` argument if called, the jump request if
issued, the `setSearchFileVisibility` call (fileId, visibility) if made, and
whether the handler threw a `TypeError`. Mutations performed before a throw
are kept, as in JavaScript. -/
structure KeyOutcome where
  state : SearchState
  activeFileId : Option String
  jump : Option JumpCmd
  visCall : Option (String × String)
  threw : Bool
deriving DecidableEq

/-- Outcome with a (possibly) new state and no external call and no throw. -/
def noEffects (st : SearchState) : KeyOutcome :=
  { state := st, activeFileId := none, jump := none, visCall := none, threw := false }

/-- The switch of `handleKeyDown`, Search.tsx lines 111–187, translated branch
by branch for a current entry `cur = files[focusedIndex]`. -/
def keySwitch (editorCache : String → Bool) (pattern : String) (key : Key)
    (st : SearchState) (cur : String × SearchFile) : KeyOutcome :=
  let fs := files st.results
  let matchingLines : Int := cur.2.«matches».length
  let fi := st.focusedIndex
  let ci := st.focusedChildIndex
  match key with
  | Key.tab => noEffects (setSearchFocusedIndex st fi none)
  | Key.arrowUp =>
    if jeqNum fi 0 && ci.isNone then noEffects st
    else if ci.isNone then
      match jGet fs (some (jnum fi - 1)) with
      | none => { noEffects st with threw := true }
      | some prev =>
        let previousMatchingLines : Int := prev.2.«matches».length
        if previousMatchingLines > 0 then
          noEffects (setSearchFocusedIndex st (some (jnum fi - 1))
            (some (previousMatchingLines - 1)))
        else
          noEffects (setSearchFocusedIndex st (some (jnum fi - 1)) none)
    else if ci = some 0 then noEffects (setSearchFocusedIndex st fi none)
    else noEffects (setSearchFocusedIndex st fi (some (jnum ci - 1)))
  | Key.arrowDown =>
    if jeqNum fi ((fs.length : Int) - 1) && jeqNum ci (matchingLines - 1) then
      noEffects st
    else if ci.isNone && decide (0 < matchingLines) then
      noEffects (setSearchFocusedIndex st fi (some 0))
    else if jeqNum ci (matchingLines - 1) then
      noEffects (setSearchFocusedIndex st (some (jnum fi + 1)) none)
    else noEffects (setSearchFocusedIndex st fi (some (jnum ci + 1)))
  | Key.arrowLeft =>
    if !ci.isNone then noEffects (setSearchFocusedIndex st fi none)
    else
      let r := flattenResult st cur.1 cur.2
      { noEffects r.1 with visCall := some r.2 }
  | Key.arrowRight =>
    if cur.2.visibility != "open" then
      let r := flattenResult st cur.1 cur.2
      { noEffects r.1 with visCall := some r.2 }
    else if ci.isNone then noEffects (setSearchFocusedIndex st fi (some 0))
    else noEffects st
  | Key.enter | Key.space =>
    let fileId := cur.1
    if ci.isNone then { noEffects st with activeFileId := some fileId }
    else
      match jGet cur.2.«matches» ci with
      | none => { noEffects st with activeFileId := some fileId, threw := true }
      | some m =>
        if editorCache fileId then
          { noEffects st with
            activeFileId := some fileId
            jump := some { fileId := fileId, pattern := pattern,
                           line := m.line, index := m.index } }
        else
          { noEffects st with activeFileId := some fileId }
  | Key.other => noEffects st

/-- The viewport-sync epilogue of `handleKeyDown`, Search.tsx lines 189–208: it
runs only when the switch did not throw, re-reads the element for the focus the
handler was entered with and, when the scroll container exists but the element
does not, `isResultElementWithinView` throws on its `null` argument. A focused
child out of range of the match list also throws (line 201). The epilogue never
changes state and issues no external write. -/
def viewportEpilogue (dom : DomEnv) (cur : String × SearchFile) (ci : Option Int)
    (sw : KeyOutcome) : KeyOutcome :=
  if sw.threw then sw
  else if dom.containerExists then
    match ci with
    | none =>
      if dom.elemExists cur.1 then sw else { sw with threw := true }
    | some _ =>
      match jGet cur.2.«matches» ci with
      | none => { sw with threw := true }
      | some m =>
        if dom.elemExists (cur.1 ++ "-" ++ toString m.line) then sw
        else { sw with threw := true }
  else sw

/-- Function `handleKeyDown`, Search.tsx lines 106–209. Line 109 reads
`files[focusedIndex][1].matches.length` before the switch, so a `null` or
out-of-range `focusedIndex` throws a `TypeError` before any effect; otherwise
the switch runs, followed by the viewport-sync epilogue over the focus values
the handler was entered with. -/
def handleKeyDown (dom : DomEnv) (editorCache : String → Bool) (pattern : String)
    (key : Key) (st : SearchState) : KeyOutcome :=
  match jGet (files st.results) st.focusedIndex with
  | none =>
    { state := st, activeFileId := none, jump := none, visCall := none, threw := true }
  | some cur =>
    viewportEpilogue dom cur st.focusedChildIndex (keySwitch editorCache pattern key st cur)

/-- The selection-and-scroll request `jumpToPattern` dispatches to the editor:
selection anchor and head (absolute document offsets) plus the scroll effect
`EditorView.scrollIntoView(position, y center)`. -/
structure Dispatch where
  anchor : Int
  head : Int
  scrollPos : Int
  scrollYCenter : Bool
deriving DecidableEq

/-- CodeMirror `editor.state.doc.line(line).from` over a document given as its
list of lines: the absolute offset of the start of the 1-based `line`, i.e.
the lengths of all earlier lines plus one newline each. Out-of-range line
numbers raise a `RangeError`, modelled as `none`. -/
def lineFrom (docLines : List String) (line : Int) : Option Int :=
  if 1 ≤ line ∧ line.toNat ≤ docLines.length then
    some ((docLines.take (line.toNat - 1)).foldl (fun acc l => acc + (l.length : Int) + 1) 0)
  else none

/-- Function `jumpToPattern`, Search.tsx lines 14–33: position is the line start plus
the 0-based column `index`; the dispatched selection spans
`position` to `position + pattern.length` and the match position is scrolled
to the vertical center. -/
def jumpToPattern (docLines : List String) (pattern : String) (line index : Int) :
    Option Dispatch :=
  match lineFrom docLines line with
  | none => none
  | some lineStart =>
    let position : Int := lineStart + index
    some { anchor := position, head := position + (pattern.length : Int),
           scrollPos := position, scrollYCenter := true }

/-- JavaScript `String.prototype.trim`: strip whitespace from both ends.
Written over the character list so that it is kernel-reducible (the library's
`String.trim` is defined by well-founded recursion and does not evaluate under
`decide`). -/
def jsTrim (s : String) : String :=
  String.mk (((s.data.dropWhile Char.isWhitespace).reverse.dropWhile
    Char.isWhitespace).reverse)

/-- State of the debounced search trigger (the `useEffect` on `pattern`,
Search.tsx lines 64–84): mount flag, the reported `isSearching` flag, a
counter handing out `setTimeout` ids, the outstanding timers with the pattern
their callback captured, the timer id the current effect's cleanup would
clear, and the list of `setSearchResults` executions so far (recorded with the
pattern current when the callback ran). -/
structure TriggerState where
  isMounted : Bool
  isSearching : Bool
  nextTimerId : Nat
  timers : List (Nat × String)
  pendingCleanup : Option Nat
  executions : List String
deriving DecidableEq

/-- React cleanup of the previous effect run: `clearTimeout(delaySearch)`
removes the previously scheduled timer, if any. -/
def clearPending (st : TriggerState) : TriggerState :=
  match st.pendingCleanup with
  | some tid => { st with timers := st.timers.filter (fun t => t.1 != tid) }
  | none => st

/-- One run of the effect for a pattern change to `p`: the previous cleanup
fires first, then (once mounted) `setIsSearching(p.trim().length >= 1)` and a
new 2000 ms timer capturing `p` are installed; the first run only sets the
mount flag. -/
def effectRun (st : TriggerState) (p : String) : TriggerState :=
  let st1 := clearPending st
  if st1.isMounted then
    { st1 with
      isSearching := decide (1 ≤ (jsTrim p).length)
      timers := st1.timers ++ [(st1.nextTimerId, p)]
      nextTimerId := st1.nextTimerId + 1
      pendingCleanup := some st1.nextTimerId }
  else
    { st1 with isMounted := true, pendingCleanup := none }

/-- The delay elapsing for timer `tid`: if the timer is still scheduled it is
consumed, and its callback runs `setSearchResults` and `setIsSearching(false)`
only when the captured pattern's trimmed length is at least 1 and the input
element still exists (`inputRef.current`). -/
def fireTimer (st : TriggerState) (inputPresent : Bool) (tid : Nat) : TriggerState :=
  match st.timers.find? (fun t => t.1 == tid) with
  | none => st
  | some t =>
    let st1 := { st with timers := st.timers.filter (fun u => u.1 != tid) }
    if decide (1 ≤ (jsTrim t.2).length) && inputPresent then
      { st1 with executions := st1.executions ++ [t.2], isSearching := false }
    else st1

/-- At most one timer is outstanding, and any outstanding timer is the one the
current effect's cleanup would clear. -/
def timerInv (st : TriggerState) : Prop :=
  st.timers.length ≤ 1 ∧ ∀ t ∈ st.timers, st.pendingCleanup = some t.1

/-- The focus invariant of spec §3: `focusedChildIndex` is non-none only if
`focusedIndex` is non-none, references a visible file, and the child index
lies within that file's match list. -/
def focusInvariantB (st : SearchState) : Bool :=
  match st.focusedChildIndex with
  | none => true
  | some c =>
    match jGet (files st.results) st.focusedIndex with
    | none => false
    | some e => decide (0 ≤ c) && decide (c < (e.2.«matches».length : Int))

/-- The id, name and match list of every result entry — the data that must
survive a visibility change. -/
def matchData (results : Results) : List (String × String × List SearchMatch) :=
  results.map (fun p => (p.1, p.2.name, p.2.«matches»))

/-- A DOM environment with no scroll container and no elements. -/
def domNone : DomEnv :=
  { containerExists := false, elemExists := fun _ => false }

/-- An editor-surface registry with no live editors. -/
def cacheNone : String → Bool := fun _ => false

/-- A sample match record. -/
def mSample : SearchMatch :=
  { line := 3, index := 5, text := "foo bar baz" }

/-- A results entry whose only file is closed: `VisibleFiles` is empty. -/
def stEmptyVisible : SearchState :=
  { results := [("a.ts", { name := "a.ts", visibility := "closed", «matches» := [mSample] })],
    focusedIndex := none, focusedChildIndex := none }

/-- Two visible files, the first open with zero matches; focus on the first
file's heading. -/
def stZeroMatchHeading : SearchState :=
  { results :=
      [("a.ts", { name := "a.ts", visibility := "open", «matches» := [] }),
       ("b.ts", { name := "b.ts", visibility := "open", «matches» := [mSample] })],
    focusedIndex := some 0, focusedChildIndex := none }

/-- Two visible files, the last with zero matches; focus on the last file's
heading — the bottom boundary of the navigation tree. -/
def stBottomZero : SearchState :=
  { results :=
      [("a.ts", { name := "a.ts", visibility := "open", «matches» := [mSample] }),
       ("b.ts", { name := "b.ts", visibility := "open", «matches» := [] })],
    focusedIndex := some 1, focusedChildIndex := none }

/-- One visible flattened file with a match; focus on its heading. -/
def stFlattened : SearchState :=
  { results := [("a.ts", { name := "a.ts", visibility := "flattened", «matches» := [mSample] })],
    focusedIndex := some 0, focusedChildIndex := none }

/-- Two visible open files with matches; focus on the first file's heading. -/
def stTwoOpen : SearchState :=
  { results :=
      [("a.ts", { name := "a.ts", visibility := "open", «matches» := [mSample] }),
       ("b.ts", { name := "b.ts", visibility := "open", «matches» := [mSample] })],
    focusedIndex := some 0, focusedChildIndex := none }

/-- Like `stTwoOpen` but with the focus on the second file's heading. -/
def stTwoOpenSecond : SearchState :=
  { results :=
      [("a.ts", { name := "a.ts", visibility := "open", «matches» := [mSample] }),
       ("b.ts", { name := "b.ts", visibility := "open", «matches» := [mSample] })],
    focusedIndex := some 1, focusedChildIndex := none }

/-- One visible open file with one match; focus on the match. -/
def stMatchFocused : SearchState :=
  { results := [("a.ts", { name := "a.ts", visibility := "open", «matches» := [mSample] })],
    focusedIndex := some 0, focusedChildIndex := some 0 }

/-- A freshly mounted trigger state: no timers, nothing executed. -/
def stTrigger : TriggerState :=
  { isMounted := true, isSearching := false, nextTimerId := 0,
    timers := [], pendingCleanup := none, executions := [] }

/-- The document of the jump example: its third line is `foo bar baz`. -/
def docSample : List String :=
  ["let x = 1;", "x += 1;", "foo bar baz"]

theorem jGet_nil {α : Type} (v : Option Int) : jGet ([] : List α) v = none := by
  cases v with
  | none => rfl
  | some i => unfold jGet; split <;> simp

theorem viewportEpilogue_fields (dom : DomEnv) (cur : String × SearchFile)
    (ci : Option Int) (sw : KeyOutcome) :
    (viewportEpilogue dom cur ci sw).state = sw.state ∧
    (viewportEpilogue dom cur ci sw).activeFileId = sw.activeFileId ∧
    (viewportEpilogue dom cur ci sw).jump = sw.jump ∧
    (viewportEpilogue dom cur ci sw).visCall = sw.visCall := by
  unfold viewportEpilogue
  repeat' split
  all_goals exact ⟨rfl, rfl, rfl, rfl⟩

theorem viewportEpilogue_no_container (dom : DomEnv) (hdom : dom.containerExists = false)
    (cur : String × SearchFile) (ci : Option Int) (sw : KeyOutcome) :
    viewportEpilogue dom cur ci sw = sw := by
  unfold viewportEpilogue
  rw [hdom]
  split <;> simp

theorem handleKeyDown_eq (dom : DomEnv) (editorCache : String → Bool) (pattern : String)
    (key : Key) (st : SearchState) (cur : String × SearchFile)
    (hcur : jGet (files st.results) st.focusedIndex = some cur) :
    handleKeyDown dom editorCache pattern key st =
      viewportEpilogue dom cur st.focusedChildIndex (keySwitch editorCache pattern key st cur) := by
  unfold handleKeyDown
  rw [hcur]

/-- C1: the claim fails on the code. With zero visible files every invocation
of the key handler faults: Search.tsx line 109 reads
`files[focusedIndex][1].matches.length` before the switch, and indexing the
empty `files` array yields `undefined`, so the read throws a `TypeError`. The
handler does perform no state mutation and no external call, but it does not
satisfy the "does not fault" part of the claim. -/
theorem handleKeyDown_empty_visible_throws (dom : DomEnv) (editorCache : String → Bool)
    (pattern : String) (key : Key) (st : SearchState)
    (h : files st.results = []) :
    (handleKeyDown dom editorCache pattern key st).threw = true ∧
    (handleKeyDown dom editorCache pattern key st).state = st ∧
    (handleKeyDown dom editorCache pattern key st).activeFileId = none ∧
    (handleKeyDown dom editorCache pattern key st).jump = none ∧
    (handleKeyDown dom editorCache pattern key st).visCall = none := by
  unfold handleKeyDown
  rw [h, jGet_nil]
  exact ⟨rfl, rfl, rfl, rfl, rfl⟩

theorem handleKeyDown_empty_visible_throws_witness :
    files stEmptyVisible.results = [] ∧
    (handleKeyDown domNone cacheNone "bar" Key.tab stEmptyVisible).threw = true ∧
    (handleKeyDown domNone cacheNone "bar" Key.tab stEmptyVisible).state = stEmptyVisible := by
  have h := handleKeyDown_empty_visible_throws domNone cacheNone "bar" Key.tab stEmptyVisible
    (by decide)
  exact ⟨by decide, h.1, h.2.1⟩

/-- C2: the claim fails on the code. `stZeroMatchHeading` satisfies the focus
invariant (heading of the first visible file focused, that file "open" with
zero matches), yet ArrowRight runs `setSearchFocusedIndex(focusedIndex, 0)`
without checking that the file has any match (Search.tsx lines 164–166), so
after the transition `focusedChildIndex = 0` points into an empty match list
and the invariant is violated. -/
theorem arrowRight_violates_focus_invariant :
    focusInvariantB stZeroMatchHeading = true ∧
    (handleKeyDown domNone cacheNone "bar" Key.arrowRight stZeroMatchHeading).state.focusedIndex
      = some 0 ∧
    (handleKeyDown domNone cacheNone "bar" Key.arrowRight stZeroMatchHeading).state.focusedChildIndex
      = some 0 ∧
    (jGet (files stZeroMatchHeading.results) (some 0)).map
      (fun e => e.2.«matches».length) = some 0 ∧
    focusInvariantB (handleKeyDown domNone cacheNone "bar" Key.arrowRight
      stZeroMatchHeading).state = false := by
  decide

/-- C3: the claim fails on the code at the zero-match bottom boundary. With the
last visible file's heading focused and that file having zero matches,
ArrowDown is not a no-op: the boundary guard compares `null == matchingLines - 1`
(false in JavaScript), and the final branch computes `focusedChildIndex + 1`
where `null` coerces to `0`, so the focus moves to child index 1 of a file with
no matches (Search.tsx lines 138–151). -/
theorem arrowDown_bottom_zero_matches_moves_focus :
    stBottomZero.focusedIndex = some 1 ∧
    stBottomZero.focusedChildIndex = none ∧
    (files stBottomZero.results).length = 2 ∧
    (jGet (files stBottomZero.results) (some 1)).map
      (fun e => e.2.«matches».length) = some 0 ∧
    (handleKeyDown domNone cacheNone "bar" Key.arrowDown stBottomZero).state.focusedIndex
      = some 1 ∧
    (handleKeyDown domNone cacheNone "bar" Key.arrowDown stBottomZero).state.focusedChildIndex
      = some 1 := by
  decide

theorem keySwitch_visCall_none (editorCache : String → Bool) (pattern : String)
    (key : Key) (st : SearchState) (cur : String × SearchFile)
    (hkey : key ≠ Key.arrowLeft) (hkey2 : key ≠ Key.arrowRight) :
    (keySwitch editorCache pattern key st cur).visCall = none := by
  cases key
  all_goals
    first
    | exact absurd rfl hkey
    | exact absurd rfl hkey2
    | (unfold keySwitch
       dsimp only
       repeat' split
       all_goals rfl)

/-- C8 counterexample: ArrowRight on a focused heading of a "flattened" file
calls `flattenResult`, which writes visibility "open" through
`setSearchFileVisibility` (Search.tsx lines 161–163) — a visibility side
effect by a navigation key other than ArrowLeft, so ArrowLeft is not the only
navigation key with a visibility side effect. -/
theorem arrowRight_performs_visibility_side_effect :
    stFlattened.focusedChildIndex = none ∧
    (handleKeyDown domNone cacheNone "bar" Key.arrowRight stFlattened).visCall
      = some ("a.ts", "open") ∧
    (handleKeyDown domNone cacheNone "bar" Key.arrowRight stFlattened).state.results
      ≠ stFlattened.results := by
  decide

/-- C8 (amended): if a match is focused, ArrowLeft collapses focus to the
current file's heading without changing any visibility; if the heading of an
"open" file is focused, ArrowLeft sets that file's visibility to "flattened";
and ArrowLeft and ArrowRight are the only navigation keys with a visibility
side effect — ArrowRight writes visibility "open" when the focused file is not
"open". -/
theorem arrowLeft_arrowRight_visibility (dom : DomEnv) (editorCache : String → Bool)
    (pattern : String) (st : SearchState) (cur : String × SearchFile)
    (hcur : jGet (files st.results) st.focusedIndex = some cur) :
    (∀ c, st.focusedChildIndex = some c →
      (handleKeyDown dom editorCache pattern Key.arrowLeft st).state =
        setSearchFocusedIndex st st.focusedIndex none ∧
      (handleKeyDown dom editorCache pattern Key.arrowLeft st).state.results = st.results ∧
      (handleKeyDown dom editorCache pattern Key.arrowLeft st).visCall = none) ∧
    (st.focusedChildIndex = none → cur.2.visibility = "open" →
      (handleKeyDown dom editorCache pattern Key.arrowLeft st).visCall
        = some (cur.1, "flattened")) ∧
    (cur.2.visibility ≠ "open" →
      (handleKeyDown dom editorCache pattern Key.arrowRight st).visCall
        = some (cur.1, "open")) ∧
    (∀ key, key ≠ Key.arrowLeft → key ≠ Key.arrowRight →
      (handleKeyDown dom editorCache pattern key st).visCall = none) := by
  refine ⟨?_, ?_, ?_, ?_⟩
  · intro c hc
    rw [handleKeyDown_eq dom editorCache pattern Key.arrowLeft st cur hcur]
    have hep := viewportEpilogue_fields dom cur st.focusedChildIndex
      (keySwitch editorCache pattern Key.arrowLeft st cur)
    rw [hep.1, hep.2.2.2]
    simp [keySwitch, hc, noEffects, setSearchFocusedIndex]
  · intro hc hvis
    rw [handleKeyDown_eq dom editorCache pattern Key.arrowLeft st cur hcur]
    have hep := viewportEpilogue_fields dom cur st.focusedChildIndex
      (keySwitch editorCache pattern Key.arrowLeft st cur)
    rw [hep.2.2.2]
    simp [keySwitch, hc, flattenResult, hvis, noEffects]
  · intro hvis
    rw [handleKeyDown_eq dom editorCache pattern Key.arrowRight st cur hcur]
    have hep := viewportEpilogue_fields dom cur st.focusedChildIndex
      (keySwitch editorCache pattern Key.arrowRight st cur)
    rw [hep.2.2.2]
    simp [keySwitch, flattenResult, hvis, noEffects]
  · intro key hkey hkey2
    rw [handleKeyDown_eq dom editorCache pattern key st cur hcur]
    have hep := viewportEpilogue_fields dom cur st.focusedChildIndex
      (keySwitch editorCache pattern key st cur)
    rw [hep.2.2.2]
    exact keySwitch_visCall_none editorCache pattern key st cur hkey hkey2

theorem arrowLeft_arrowRight_visibility_witness :
    (handleKeyDown domNone cacheNone "bar" Key.arrowLeft stMatchFocused).visCall = none ∧
    (handleKeyDown domNone cacheNone "bar" Key.arrowLeft stTwoOpen).visCall
      = some ("a.ts", "flattened") ∧
    (handleKeyDown domNone cacheNone "bar" Key.tab stTwoOpen).visCall = none := by
  have h1 := arrowLeft_arrowRight_visibility domNone cacheNone "bar" stMatchFocused
    ("a.ts", { name := "a.ts", visibility := "open", «matches» := [mSample] }) (by decide)
  have h2 := arrowLeft_arrowRight_visibility domNone cacheNone "bar" stTwoOpen
    ("a.ts", { name := "a.ts", visibility := "open", «matches» := [mSample] }) (by decide)
  exact ⟨(h1.1 0 rfl).2.2, h2.2.1 rfl rfl, h2.2.2.2 Key.tab (by decide) (by decide)⟩

/-- C9: activation (Enter or Space) with a valid focused match always sets the
active file; when the target file has no live editor surface in `editorCache`
the jump is silently skipped and nothing throws; when an editor surface exists
the jump command carries that match's line and column (Search.tsx lines
169–184). -/
theorem enter_space_jump_behavior (dom : DomEnv) (editorCache : String → Bool)
    (pattern : String) (key : Key) (st : SearchState) (cur : String × SearchFile)
    (c : Int) (m : SearchMatch)
    (hkey : key = Key.enter ∨ key = Key.space)
    (hcur : jGet (files st.results) st.focusedIndex = some cur)
    (hci : st.focusedChildIndex = some c)
    (hm : jGet cur.2.«matches» (some c) = some m)
    (hdom : dom.containerExists = false) :
    (handleKeyDown dom editorCache pattern key st).activeFileId = some cur.1 ∧
    (handleKeyDown dom editorCache pattern key st).threw = false ∧
    (handleKeyDown dom editorCache pattern key st).state = st ∧
    (handleKeyDown dom editorCache pattern key st).jump =
      (if editorCache cur.1 then
         some { fileId := cur.1, pattern := pattern, line := m.line, index := m.index }
       else none) := by
  rw [handleKeyDown_eq dom editorCache pattern key st cur hcur,
      viewportEpilogue_no_container dom hdom]
  rcases hkey with h | h <;> subst h <;>
    by_cases hedit : editorCache cur.1 <;>
      simp [keySwitch, hci, hm, hedit, noEffects]

theorem enter_space_jump_behavior_witness :
    (handleKeyDown domNone cacheNone "bar" Key.enter stMatchFocused).activeFileId
      = some "a.ts" ∧
    (handleKeyDown domNone cacheNone "bar" Key.enter stMatchFocused).threw = false ∧
    (handleKeyDown domNone cacheNone "bar" Key.enter stMatchFocused).jump = none := by
  have h := enter_space_jump_behavior domNone cacheNone "bar" Key.enter stMatchFocused
    ("a.ts", { name := "a.ts", visibility := "open", «matches» := [mSample] }) 0 mSample
    (Or.inl rfl) (by decide) rfl (by decide) rfl
  refine ⟨h.1, h.2.1, ?_⟩
  rw [h.2.2.2]
  decide

/-- C10: from a heading focus `(i, none)` on a visible file with at least one
match, ArrowDown enters the first match `(i, 0)` and ArrowUp then collapses
back to the heading, returning the focus to `(i, none)` (Search.tsx lines
116–153). -/
theorem arrowDown_arrowUp_roundtrip (dom : DomEnv) (editorCache : String → Bool)
    (pattern : String) (st : SearchState) (i : Int) (cur : String × SearchFile)
    (hfi : st.focusedIndex = some i)
    (hci : st.focusedChildIndex = none)
    (hcur : jGet (files st.results) (some i) = some cur)
    (hM : 0 < cur.2.«matches».length) :
    ((handleKeyDown dom editorCache pattern Key.arrowUp
        (handleKeyDown dom editorCache pattern Key.arrowDown st).state).state).focusedIndex
      = some i ∧
    ((handleKeyDown dom editorCache pattern Key.arrowUp
        (handleKeyDown dom editorCache pattern Key.arrowDown st).state).state).focusedChildIndex
      = none := by
  have hcur0 : jGet (files st.results) st.focusedIndex = some cur := by
    rw [hfi]; exact hcur
  have hM' : (0 : Int) < (cur.2.«matches».length : Int) := by exact_mod_cast hM
  have h1 : (handleKeyDown dom editorCache pattern Key.arrowDown st).state =
      { st with focusedIndex := some i, focusedChildIndex := some 0 } := by
    rw [handleKeyDown_eq dom editorCache pattern Key.arrowDown st cur hcur0,
        (viewportEpilogue_fields dom cur st.focusedChildIndex
          (keySwitch editorCache pattern Key.arrowDown st cur)).1]
    simp [keySwitch, hci, hfi, jeqNum, hM', noEffects, setSearchFocusedIndex]
  have hfi1 : ((handleKeyDown dom editorCache pattern Key.arrowDown st).state).focusedIndex
      = some i := by rw [h1]
  have hci1 : ((handleKeyDown dom editorCache pattern Key.arrowDown st).state).focusedChildIndex
      = some 0 := by rw [h1]
  have hres1 : ((handleKeyDown dom editorCache pattern Key.arrowDown st).state).results
      = st.results := by rw [h1]
  have hcur1 : jGet (files ((handleKeyDown dom editorCache pattern Key.arrowDown st).state).results)
      ((handleKeyDown dom editorCache pattern Key.arrowDown st).state).focusedIndex
      = some cur := by rw [hfi1, hres1]; exact hcur
  rw [handleKeyDown_eq dom editorCache pattern Key.arrowUp _ cur hcur1,
      (viewportEpilogue_fields dom cur _ _).1]
  constructor <;>
    simp [keySwitch, hci1, hfi1, noEffects, setSearchFocusedIndex]

theorem arrowDown_arrowUp_roundtrip_witness :
    ((handleKeyDown domNone cacheNone "bar" Key.arrowUp
        (handleKeyDown domNone cacheNone "bar" Key.arrowDown stTwoOpen).state).state).focusedIndex
      = some 0 ∧
    ((handleKeyDown domNone cacheNone "bar" Key.arrowUp
        (handleKeyDown domNone cacheNone "bar" Key.arrowDown stTwoOpen).state).state).focusedChildIndex
      = none :=
  arrowDown_arrowUp_roundtrip domNone cacheNone "bar" stTwoOpen 0
    ("a.ts", { name := "a.ts", visibility := "open", «matches» := [mSample] })
    rfl rfl (by decide) (by decide)

theorem setSearchFileVisibility_results (st : SearchState) (fileId vis : String) :
    (setSearchFileVisibility st fileId vis).results
      = st.results.map (updateVis fileId vis) := by
  unfold setSearchFileVisibility
  dsimp only
  repeat' split
  all_goals rfl

theorem mem_files_updateVis_closed (results : Results) (fileId : String) :
    ∀ p ∈ files (results.map (updateVis fileId "closed")), p.1 ≠ fileId := by
  intro p hp hpid
  rw [files, List.mem_filter] at hp
  obtain ⟨hmem, hvis⟩ := hp
  rw [List.mem_map] at hmem
  obtain ⟨q, hq, hpq⟩ := hmem
  by_cases h : q.1 = fileId
  · rw [← hpq] at hvis
    simp [updateVis, h] at hvis
  · rw [← hpq] at hpid
    simp [updateVis, h] at hpid

theorem matchData_updateVis (results : Results) (fileId vis : String) :
    matchData (results.map (updateVis fileId vis)) = matchData results := by
  unfold matchData
  rw [List.map_map]
  apply List.map_congr_left
  intro a _
  by_cases h : a.1 = fileId <;> simp [updateVis, h]

/-- C4: closing a file (visibility "closed") removes it from the visible files,
keeps its name and match data in `results`, and — per the spec-modelled focus
reassignment of `setSearchFileVisibility` — moves a focus that pointed at the
closed file to the previous visible file, or to none if it was the first. -/
theorem closeResult_spec (st : SearchState) (fileId : String) (i : Int)
    (e : String × SearchFile)
    (hi : st.focusedIndex = some i)
    (he : jGet (files st.results) (some i) = some e)
    (hname : e.1 = fileId) :
    (∀ p ∈ files (closeResult st fileId).results, p.1 ≠ fileId) ∧
    matchData (closeResult st fileId).results = matchData st.results ∧
    (closeResult st fileId).focusedIndex = (if i = 0 then none else some (i - 1)) ∧
    (closeResult st fileId).focusedChildIndex = none := by
  have hcr : closeResult st fileId =
      { results := st.results.map (updateVis fileId "closed")
        focusedIndex := if i = 0 then none else some (i - 1)
        focusedChildIndex := none } := by
    unfold closeResult setSearchFileVisibility
    rw [hi, he]
    simp [hname]
    by_cases h0 : i = 0 <;> simp [h0]
  rw [hcr]
  exact ⟨mem_files_updateVis_closed st.results fileId,
    matchData_updateVis st.results fileId "closed", rfl, rfl⟩

theorem closeResult_spec_witness :
    (closeResult stTwoOpenSecond "b.ts").focusedIndex = some 0 ∧
    (closeResult stTwoOpenSecond "b.ts").focusedChildIndex = none ∧
    (∀ p ∈ files (closeResult stTwoOpenSecond "b.ts").results, p.1 ≠ "b.ts") ∧
    matchData (closeResult stTwoOpenSecond "b.ts").results
      = matchData stTwoOpenSecond.results := by
  have h := closeResult_spec stTwoOpenSecond "b.ts" 1
    ("b.ts", { name := "b.ts", visibility := "open", «matches» := [mSample] })
    rfl (by decide) rfl
  refine ⟨?_, h.2.2.2, h.1, h.2.1⟩
  rw [h.2.2.1]
  decide

theorem clearPending_timers_nil (st : TriggerState) (hinv : timerInv st) :
    (clearPending st).timers = [] := by
  cases h : st.pendingCleanup with
  | none =>
    simp only [clearPending, h]
    rw [List.eq_nil_iff_forall_not_mem]
    intro a ha
    have h2 := hinv.2 a ha
    rw [h] at h2
    exact Option.noConfusion h2
  | some tid =>
    simp only [clearPending, h]
    rw [List.filter_eq_nil_iff]
    intro a ha
    have h2 := hinv.2 a ha
    rw [h] at h2
    have h3 : a.1 = tid := (Option.some_inj.mp h2).symm
    simp [h3]

theorem effectRun_mounted (st : TriggerState) (p : String)
    (hm : st.isMounted = true) (hinv : timerInv st) :
    effectRun st p =
      { isMounted := true
        isSearching := decide (1 ≤ (jsTrim p).length)
        nextTimerId := st.nextTimerId + 1
        timers := [(st.nextTimerId, p)]
        pendingCleanup := some st.nextTimerId
        executions := st.executions } := by
  have ht := clearPending_timers_nil st hinv
  obtain ⟨im, se, nid, tms, pc, ex⟩ := st
  dsimp only at hm ⊢
  subst hm
  cases pc with
  | none =>
    simp only [clearPending] at ht
    subst ht
    simp [effectRun, clearPending]
  | some tid =>
    simp only [clearPending] at ht
    simp [effectRun, clearPending, ht]

theorem timerInv_effectRun (st : TriggerState) (p : String)
    (hm : st.isMounted = true) (hinv : timerInv st) :
    timerInv (effectRun st p) ∧ (effectRun st p).isMounted = true ∧
    (effectRun st p).nextTimerId = st.nextTimerId + 1 ∧
    (effectRun st p).timers = [(st.nextTimerId, p)] ∧
    (effectRun st p).executions = st.executions := by
  rw [effectRun_mounted st p hm hinv]
  refine ⟨⟨by simp, fun t htm => ?_⟩, rfl, rfl, rfl, rfl⟩
  have h : t = (st.nextTimerId, p) := by simpa using htm
  rw [h]

theorem fireTimer_singleton (st : TriggerState) (tid : Nat) (p : String)
    (ht : st.timers = [(tid, p)]) (hp : 1 ≤ (jsTrim p).length) :
    (fireTimer st true tid).executions = st.executions ++ [p] := by
  unfold fireTimer
  rw [ht]
  simp [List.find?, hp]

/-- C5: entering patterns `p1, p2, p3` in succession, each before the pending
timer fires, leaves at most one timer outstanding after every change (each
effect's cleanup clears the previous `setTimeout` before the next is
installed), performs no execution before the delay elapses, and firing the one
surviving timer performs exactly one `setSearchResults` execution, with the
latest pattern `p3` current. -/
theorem debounce_single_execution (st : TriggerState) (p1 p2 p3 : String)
    (hm : st.isMounted = true) (hinv : timerInv st) (hp3 : 1 ≤ (jsTrim p3).length) :
    (effectRun st p1).timers.length ≤ 1 ∧
    (effectRun (effectRun st p1) p2).timers.length ≤ 1 ∧
    (effectRun (effectRun (effectRun st p1) p2) p3).timers.length ≤ 1 ∧
    (effectRun (effectRun (effectRun st p1) p2) p3).executions = st.executions ∧
    ∃ tid,
      (effectRun (effectRun (effectRun st p1) p2) p3).timers = [(tid, p3)] ∧
      (fireTimer (effectRun (effectRun (effectRun st p1) p2) p3) true tid).executions
        = st.executions ++ [p3] := by
  obtain ⟨hinv1, hm1, hn1, ht1, he1⟩ := timerInv_effectRun st p1 hm hinv
  obtain ⟨hinv2, hm2, hn2, ht2, he2⟩ :=
    timerInv_effectRun (effectRun st p1) p2 hm1 hinv1
  obtain ⟨hinv3, hm3, hn3, ht3, he3⟩ :=
    timerInv_effectRun (effectRun (effectRun st p1) p2) p3 hm2 hinv2
  refine ⟨by rw [ht1]; simp, by rw [ht2]; simp, by rw [ht3]; simp,
    by rw [he3, he2, he1], ?_⟩
  refine ⟨(effectRun (effectRun st p1) p2).nextTimerId, ht3, ?_⟩
  rw [fireTimer_singleton _ _ _ ht3 hp3, he3, he2, he1]

theorem debounce_single_execution_witness :
    (effectRun (effectRun (effectRun stTrigger "p1") "p2") "p3").executions = [] ∧
    (fireTimer (effectRun (effectRun (effectRun stTrigger "p1") "p2") "p3") true 2).executions
      = ["p3"] := by
  have h := debounce_single_execution stTrigger "p1" "p2" "p3" rfl
    (by simp [timerInv, stTrigger]) (by decide)
  obtain ⟨_, _, _, hexec, tid, htid, hfire⟩ := h
  have htid2 : tid = 2 := by
    have : (effectRun (effectRun (effectRun stTrigger "p1") "p2") "p3").timers
        = [(2, "p3")] := by decide
    rw [this] at htid
    exact (Prod.mk.injEq _ _ _ _ ▸ (List.cons.injEq _ _ _ _ ▸ htid).1).1.symm
  rw [htid2] at hfire
  exact ⟨hexec, hfire⟩

/-- C6: for a pattern whose trimmed form is empty the trigger immediately
reports "not searching", and the timer installed by the effect never executes
a search: firing any timer leaves the execution list unchanged, because the
callback's guard `pattern.trim().length >= 1` is false. -/
theorem empty_pattern_no_search (st : TriggerState) (p : String)
    (hm : st.isMounted = true) (hinv : timerInv st) (hp : jsTrim p = "") :
    (effectRun st p).isSearching = false ∧
    ∀ b tid, (fireTimer (effectRun st p) b tid).executions
      = (effectRun st p).executions := by
  rw [effectRun_mounted st p hm hinv]
  constructor
  · simp [hp]
  · intro b tid
    unfold fireTimer
    by_cases h : st.nextTimerId = tid
    · simp [List.find?, h, hp]
    · have hb : (st.nextTimerId == tid) = false := by simp [h]
      simp [List.find?, hb]

theorem empty_pattern_no_search_witness :
    (effectRun stTrigger "   ").isSearching = false ∧
    (fireTimer (effectRun stTrigger "   ") true 0).executions = [] := by
  have h := empty_pattern_no_search stTrigger "   " rfl
    (by simp [timerInv, stTrigger]) (by decide)
  refine ⟨h.1, ?_⟩
  rw [h.2 true 0]
  decide

/-- C7: for a match at 1-based `line` and 0-based column `index` with the
current pattern, the dispatched selection spans the half-open offset range
from `lineStart + index` to `lineStart + index + pattern.length`, where
`lineStart` is the document offset of the start of `line`, and the match
position is scrolled to the vertical center of the editor. -/
theorem jumpToPattern_selection (docLines : List String) (pattern : String)
    (line index lineStart : Int)
    (h : lineFrom docLines line = some lineStart) :
    jumpToPattern docLines pattern line index =
      some { anchor := lineStart + index
             head := lineStart + index + (pattern.length : Int)
             scrollPos := lineStart + index
             scrollYCenter := true } := by
  unfold jumpToPattern
  rw [h]

theorem jumpToPattern_selection_witness :
    lineFrom docSample 3 = some 19 ∧
    jumpToPattern docSample "bar" 3 5 =
      some { anchor := 19 + 5, head := 19 + 5 + ("bar".length : Int),
             scrollPos := 19 + 5, scrollYCenter := true } ∧
    ("bar".length : Int) = 3 ∧ (19 + 5 : Int) = 24 ∧ (19 + 5 + 3 : Int) = 27 := by
  exact ⟨by decide, jumpToPattern_selection docSample "bar" 3 5 19 (by decide),
    by decide, by decide, by decide⟩
